import Mathlib

/-
Shallow embedding of the Dlink compiler front end: the recursive-descent
parser (Parser.cc) and the AST code-generation / tree-rendering members
(ParseStruct/Operation.cc), together with theorems settling the frozen
claims about them.

The parser is embedded as a family of mutually recursive functions over an
explicit parser state (token list, cursor position, accumulated errors),
with a fuel argument making the recursion structural.  Every C++ rule
`bool Parser::rule(OutPtr& out, Token* start_token)` becomes a Lean
function `rule : Nat -> PState -> Option (Out × Token) × PState`: on
success the returned pair holds the produced node and the token the rule
would write through `start_token`; the returned state carries the cursor
and error set as mutated by the call (also on failure, as in the source).
-/

namespace Dlink

/-- Token kinds of the Dlink lexer, as used by the parser and by
`operator_string` in ParseStruct/Operation.cc.  The `eof` constructor is
an end-of-stream sentinel: reading the current token past the end of the
input is modelled as this sentinel (no rule accepts it). -/
inductive TokenType
  | dec_integer
  | identifier
  | plus
  | increment
  | plus_assign
  | minus
  | decrement
  | minus_assign
  | multiply
  | multiply_assign
  | divide
  | divide_assign
  | modulo
  | modulo_assign
  | assign
  | equal
  | noteq
  | greater
  | eqgreater
  | less
  | eqless
  | logic_and
  | logic_or
  | bit_not
  | bit_and
  | bit_and_assign
  | bit_or
  | bit_or_assign
  | bit_xor
  | bit_xor_assign
  | bit_lshift
  | bit_lshift_assign
  | bit_rshift
  | bit_rshift_assign
  | dot
  | lparen
  | rparen
  | lbrace
  | rbrace
  | lbparen
  | rbparen
  | comma
  | semicolon
  | _unsigned
  | _signed
  | _char
  | _short
  | _int
  | _long
  | _void
  | _return
  | eof
deriving Repr, DecidableEq

/-- Token produced by the lexer: a kind tag, the literal text and the
source location (line and column), per the data model (Token.hh is not
under src/; the parser only inspects `type` and `data`, the location
serves diagnostics and distinguishes equal lexemes). -/
structure Token where
  type : TokenType
  data : String
  line : Nat
  col : Nat
deriving Repr, DecidableEq

/-- Model of a default-constructed C++ `Token` (as in `Token block_start;`
in Parser::block before any assignment). -/
def defaultToken : Token := { type := TokenType.eof, data := "", line := 0, col := 0 }

/-- Parse error: the offending token and a message (Error in Error.hh). -/
structure Error where
  token : Token
  message : String
deriving Repr, DecidableEq

/-- Expression nodes of the AST (ParseStruct/Operation.hh et al.).  The
constructor `nullE` models a null `ExpressionPtr`: the parser can hand a
null expression to a node (see Parser::paren ignoring a failed inner
`expr` call), so expression children are values of this type with `nullE`
standing for the null pointer. -/
inductive Expr
  | nullE
  | integer32 (token : Token) (data : Int)
  | identifier (token : Token) (id : String)
  | binaryOperation (token : Token) (op : TokenType) (lhs rhs : Expr)
  | unaryOperation (token : Token) (op : TokenType) (rhs : Expr)
  | functionCallOperation (token : Token) (func_expr : Expr) (argument : List Expr)

/-- Type nodes of the AST (ParseStruct/Type.hh): SimpleType, StaticArray
and LValueReference, each carrying its start token. -/
inductive Ty
  | simpleType (token : Token) (identifier : String) (is_unsigned : Bool)
  | staticArray (token : Token) (type : Ty) (length : Expr)
  | lvalueReference (token : Token) (type : Ty)

end Dlink

namespace Dlink

/-- VariableDeclaration node (ParseStruct/Declaration.hh): start token,
declared type, identifier and initializer expression; a missing
initializer (the two-argument C++ constructor) is the null expression. -/
structure VariableDeclaration where
  token : Token
  type : Ty
  identifier : String
  expression : Expr

/-- Statement nodes of the AST: ExpressionStatement, ReturnStatement,
VariableDeclaration, FunctionDeclaration, Scope and Block.  Scope has a
third constructor argument in the C++ source that the parser always fills
with `nullptr /* TODO */`; it is omitted here.  A null statement pointer
never becomes a child of a constructed node, so no null constructor is
needed. -/
inductive Stmt
  | expressionStatement (token : Token) (expression : Expr)
  | returnStatement (token : Token) (return_expr : Expr)
  | variableDeclaration (decl : VariableDeclaration)
  | functionDeclaration (token : Token) (return_type : Ty) (identifier : String)
      (parameter : List VariableDeclaration) (body : Stmt)
  | scope (token : Token) (statements : List Stmt)
  | block (token : Token) (statements : List Stmt)

/-- Parser state: the immutable token input, the forward cursor
(`token_iter_` as an index) and the accumulated error set (`errors_`),
in order of insertion. -/
structure PState where
  input : List Token
  pos : Nat
  errors : List Error

/-- Result of a parsing rule with output type `α`: `some (node, start)`
models the C++ rule returning true after writing `node` to its out
parameter and `start` through its `start_token` pointer; `none` models
returning false.  The state is returned in either case. -/
abbrev PResult (α : Type) := Option (α × Token) × PState

/-- Model of `Parser::current_token`, i.e. `*token_iter_`; past the end of
the input it yields the `eof` sentinel. -/
def currentToken (s : PState) : Token := s.input.getD s.pos defaultToken

/-- Model of `Parser::accept(token_type, start_token)`: if the current
token has the requested type, advance the cursor and return the consumed
token (what the source assigns from `previous_token()`); otherwise change
nothing. -/
def accept (token_type : TokenType) (s : PState) : Option Token × PState :=
  if (currentToken s).type = token_type then
    (some (currentToken s), { s with pos := s.pos + 1 })
  else
    (none, s)

/-- Model of `errors_.add_error(Error(tok, msg))`. -/
def addError (s : PState) (tok : Token) (msg : String) : PState :=
  { s with errors := s.errors ++ [{ token := tok, message := msg }] }

/-- Model of `std::stoi` as used by Parser::number: the lexer only hands
it decimal literals matching `[1-9][0-9]*`, on which stoi is the plain
decimal value, computed here as a digit fold. -/
def stoi (s : String) : Int :=
  Int.ofNat (s.data.foldl (fun acc c => acc * 10 + (c.toNat - 48)) 0)

/-- Start token stored in a type node (the `token` field of the base
ParseStruct node), read by Parser::func_decl for the void-parameter
check. -/
def Ty.token : Ty → Token
  | .simpleType tok _ _ => tok
  | .staticArray tok _ _ => tok
  | .lvalueReference tok _ => tok

end Dlink

namespace Dlink
namespace Parser

/-- Model of `Parser::number`: accept a decimal integer token and build
an Integer32 node from `std::stoi` of its text. -/
def number (s : PState) : PResult Expr :=
  match accept TokenType.dec_integer s with
  | (some number_start, s1) =>
    (some (Expr.integer32 number_start (stoi number_start.data), number_start), s1)
  | (none, s1) => (none, s1)

/-- Model of `Parser::identifier`: accept an identifier token and build
an Identifier node from its text. -/
def identifier (s : PState) : PResult Expr :=
  match accept TokenType.identifier s with
  | (some identifier_start, s1) =>
    (some (Expr.identifier identifier_start identifier_start.data, identifier_start), s1)
  | (none, s1) => (none, s1)

/-- Model of `Parser::atom`: `number(out, start_token) ||
identifier(out, start_token)`. -/
def atom (s : PState) : PResult Expr :=
  match number s with
  | (some r, s1) => (some r, s1)
  | (none, s1) => identifier s1

/-- Model of `Parser::simple_type`: an optional `unsigned`/`signed`
keyword followed by a size keyword; only `int` (and defaulting to `int`)
and bare `void` produce a node, the other size keywords are consumed and
rejected (`return false; // TODO`). -/
def simple_type (s : PState) : PResult Ty :=
  match accept TokenType._unsigned s with
  | (some simple_type_start, s1) =>
    (match accept TokenType._char s1 with
     | (some _, s2) => (none, s2)
     | (none, s2) =>
       match accept TokenType._short s2 with
       | (some _, s3) => (none, s3)
       | (none, s3) =>
         match accept TokenType._int s3 with
         | (some _, s4) =>
           (some (Ty.simpleType simple_type_start "int" true, simple_type_start), s4)
         | (none, s4) =>
           match accept TokenType._long s4 with
           | (some _, s5) => (none, s5)
           | (none, s5) =>
             (some (Ty.simpleType simple_type_start "int" true, simple_type_start), s5))
  | (none, s1) =>
    match accept TokenType._signed s1 with
    | (some simple_type_start, s2) =>
      (match accept TokenType._char s2 with
       | (some _, s3) => (none, s3)
       | (none, s3) =>
         match accept TokenType._short s3 with
         | (some _, s4) => (none, s4)
         | (none, s4) =>
           match accept TokenType._int s4 with
           | (some _, s5) =>
             (some (Ty.simpleType simple_type_start "int" false, simple_type_start), s5)
           | (none, s5) =>
             match accept TokenType._long s5 with
             | (some _, s6) => (none, s6)
             | (none, s6) =>
               (some (Ty.simpleType simple_type_start "int" false, simple_type_start), s6))
    | (none, s2) =>
      match accept TokenType._char s2 with
      | (some _, s3) => (none, s3)
      | (none, s3) =>
        match accept TokenType._short s3 with
        | (some _, s4) => (none, s4)
        | (none, s4) =>
          match accept TokenType._int s4 with
          | (some simple_type_start, s5) =>
            (some (Ty.simpleType simple_type_start "int" false, simple_type_start), s5)
          | (none, s5) =>
            match accept TokenType._long s5 with
            | (some _, s6) => (none, s6)
            | (none, s6) =>
              match accept TokenType._void s6 with
              | (some simple_type_start, s7) =>
                (some (Ty.simpleType simple_type_start "void" false, simple_type_start), s7)
              | (none, s7) => (none, s7)

/-- Model of `Parser::reference_type`: a simple type optionally followed
by `&`, which wraps it in an LValueReference. -/
def reference_type (s : PState) : PResult Ty :=
  match simple_type s with
  | (some (type, reference_start_token), s1) =>
    (match accept TokenType.bit_and s1 with
     | (some _, s2) =>
       (some (Ty.lvalueReference reference_start_token type, reference_start_token), s2)
     | (none, s2) => (some (type, reference_start_token), s2))
  | (none, s1) => (none, s1)

end Parser
end Dlink

namespace Dlink
namespace Parser

mutual

/-- Model of `Parser::scope`: either a braced group of declarations or a
single declaration; on a missing closing brace an error is raised. -/
def scope : Nat → PState → PResult Stmt
  | 0, s => (none, s)
  | fuel+1, s =>
    match accept TokenType.lbrace s with
    | (some scope_start, s1) =>
      (match scopeLoop fuel s1 [] with
       | (statements, s2) =>
         match accept TokenType.rbrace s2 with
         | (some _, s3) => (some (Stmt.scope scope_start statements, scope_start), s3)
         | (none, s3) =>
           (none, addError s3 (currentToken s3)
             ("Expected \x27\x7d\x27, but got \x22" ++ (currentToken s3).data ++ "\x22")))
    | (none, s1) =>
      match var_decl fuel s1 with
      | (some (statement, var_decl_start), s2) => (some (statement, var_decl_start), s2)
      | (none, s2) => (none, s2)

/-- Model of the `while (var_decl(statement))` loop inside the braced
branch of `Parser::scope`. -/
def scopeLoop : Nat → PState → List Stmt → List Stmt × PState
  | 0, s, acc => (acc, s)
  | fuel+1, s, acc =>
    match var_decl fuel s with
    | (some (statement, _), s1) => scopeLoop fuel s1 (acc ++ [statement])
    | (none, s1) => (acc, s1)

/-- Model of `Parser::var_decl`: a type followed by an identifier and then
`;`, `= expr ;`, or `(` (function declaration); with no leading type it
falls through to `return_stmt`.  In the function-declaration branch the
C++ code calls `func_decl` without passing its own `start_token` pointer
on, so the caller's start-token variable keeps its previous
(default-constructed) value; that is modelled by returning
`defaultToken` as the start token there. -/
def var_decl : Nat → PState → PResult Stmt
  | 0, s => (none, s)
  | fuel+1, s =>
    match type fuel s with
    | (some (type_expr, var_decl_start), s1) =>
      (match accept TokenType.identifier s1 with
       | (some name_token, s2) =>
         (match accept TokenType.assign s2 with
          | (some _, s3) =>
            (match expr fuel s3 with
             | (some (expression, _), s4) =>
               (match accept TokenType.semicolon s4 with
                | (some _, s5) =>
                  (some (Stmt.variableDeclaration
                    { token := var_decl_start, type := type_expr,
                      identifier := name_token.data, expression := expression },
                    var_decl_start), s5)
                | (none, s5) =>
                  (none, addError s5 (currentToken s5)
                    ("Expected \x27;\x27, but got \x22" ++ (currentToken s5).data ++ "\x22")))
             | (none, s4) =>
               (none, addError s4 (currentToken s4)
                 ("Expected expression, but got \x22" ++ (currentToken s4).data ++ "\x22")))
          | (none, s3) =>
            match accept TokenType.semicolon s3 with
            | (some _, s4) =>
              (some (Stmt.variableDeclaration
                { token := var_decl_start, type := type_expr,
                  identifier := name_token.data, expression := Expr.nullE },
                var_decl_start), s4)
            | (none, s4) =>
              match accept TokenType.lparen s4 with
              | (some _, s5) =>
                (match func_decl fuel s5 var_decl_start type_expr name_token.data with
                 | (some (statement, _), s6) => (some (statement, defaultToken), s6)
                 | (none, s6) => (none, s6))
              | (none, s5) =>
                (none, addError s5 (currentToken s5)
                  ("Expected identifier, but got \x22" ++ (currentToken s5).data ++ "\x22")))
       | (none, s2) =>
         (none, addError s2 (currentToken s2)
           ("Expected identifier, but got \x22" ++ (currentToken s2).data ++ "\x22")))
    | (none, s1) =>
      match return_stmt fuel s1 with
      | (some (statement, return_start), s2) => (some (statement, return_start), s2)
      | (none, s2) => (none, s2)

/-- Model of `Parser::func_decl` after the opening parenthesis: parse the
parameter list, then a scope as the body; each failure raises an
`Unexpected ...` error. -/
def func_decl : Nat → PState → Token → Ty → String → PResult Stmt
  | 0, s, _, _, _ => (none, s)
  | fuel+1, s, var_decl_start_token, return_type, ident =>
    match func_decl_params fuel s var_decl_start_token [] with
    | (none, s1) => (none, s1)
    | (some param_list, s1) =>
      match scope fuel s1 with
      | (some (body, _), s2) =>
        (some (Stmt.functionDeclaration var_decl_start_token return_type ident param_list body,
          var_decl_start_token), s2)
      | (none, s2) =>
        (none, addError s2 (currentToken s2)
          ("Unexpected \x22" ++ (currentToken s2).data ++ "\x22"))

/-- Model of the `while (true)` parameter-list loop of
`Parser::func_decl`.  Every constructed parameter VariableDeclaration is
given `var_decl_start_token` (the token starting the whole declaration)
as its token, exactly as in the source. -/
def func_decl_params : Nat → PState → Token → List VariableDeclaration →
    Option (List VariableDeclaration) × PState
  | 0, s, _, _ => (none, s)
  | fuel+1, s, var_decl_start_token, param_list =>
    match type fuel s with
    | (some (param_type, _), s1) =>
      if (Ty.token param_type).type = TokenType._void then
        match accept TokenType.rparen s1 with
        | (some _, s2) => (some param_list, s2)
        | (none, s2) =>
          (none, addError s2 (currentToken s2)
            "Unexpected additional parameter in void paramter function")
      else
        match accept TokenType.identifier s1 with
        | (some id_token, s2) =>
          let param_list2 := param_list ++
            [{ token := var_decl_start_token, type := param_type,
               identifier := id_token.data, expression := Expr.nullE }]
          (match accept TokenType.comma s2 with
           | (some _, s3) => func_decl_params fuel s3 var_decl_start_token param_list2
           | (none, s3) => func_decl_params fuel s3 var_decl_start_token param_list2)
        | (none, s2) =>
          let unnamed_param : VariableDeclaration :=
            { token := var_decl_start_token, type := param_type,
              identifier := "", expression := Expr.nullE }
          match accept TokenType.comma s2 with
          | (some _, s3) =>
            func_decl_params fuel s3 var_decl_start_token (param_list ++ [unnamed_param])
          | (none, s3) => func_decl_params fuel s3 var_decl_start_token param_list
    | (none, s1) =>
      match accept TokenType.rparen s1 with
      | (some _, s2) => (some param_list, s2)
      | (none, s2) =>
        (none, addError s2 (currentToken s2)
          ("Unexpected \x22" ++ (currentToken s2).data ++ "\x22"))

/-- Model of `Parser::return_stmt`: after `return`, the result of the
inner `expr` call is ignored, so a missing return expression leaves the
stored expression null; without `return` it falls through to
`expr_stmt`. -/
def return_stmt : Nat → PState → PResult Stmt
  | 0, s => (none, s)
  | fuel+1, s =>
    match accept TokenType._return s with
    | (some return_start, s1) =>
      (match expr fuel s1 with
       | (er, s2) =>
         let return_expr := match er with
           | some (e, _) => e
           | none => Expr.nullE
         match accept TokenType.semicolon s2 with
         | (some _, s3) =>
           (some (Stmt.returnStatement return_start return_expr, return_start), s3)
         | (none, s3) =>
           (none, addError s3 (currentToken s3)
             ("Expected \x27;\x27, but got \x22" ++ (currentToken s3).data ++ "\x22")))
    | (none, s1) =>
      match expr_stmt fuel s1 with
      | (some (statement, expr_stmt_start), s2) => (some (statement, expr_stmt_start), s2)
      | (none, s2) => (none, s2)

/-- Model of `Parser::expr_stmt`: an expression followed by `;`. -/
def expr_stmt : Nat → PState → PResult Stmt
  | 0, s => (none, s)
  | fuel+1, s =>
    match expr fuel s with
    | (none, s1) => (none, s1)
    | (some (expression, expr_stmt_start), s1) =>
      match accept TokenType.semicolon s1 with
      | (some _, s2) =>
        (some (Stmt.expressionStatement expr_stmt_start expression, expr_stmt_start), s2)
      | (none, s2) =>
        (none, addError s2 (currentToken s2)
          ("Expected \x27;\x27, but got \x22" ++ (currentToken s2).data ++ "\x22"))

/-- Model of `Parser::expr`: delegates to `assign`. -/
def expr : Nat → PState → PResult Expr
  | 0, s => (none, s)
  | fuel+1, s => assign fuel s

/-- Model of `Parser::assign`: collect `addsub` operands separated by `=`
left to right, then fold them right to left into nested assignment
BinaryOperations, every node carrying `assign_start`. -/
def assign : Nat → PState → PResult Expr
  | 0, s => (none, s)
  | fuel+1, s =>
    match addsub fuel s with
    | (none, s1) => (none, s1)
    | (some (lhs, assign_start), s1) =>
      match assignLoop fuel s1 [lhs] with
      | (none, s2) => (none, s2)
      | (some operands, s2) =>
        let result := operands.getLastD Expr.nullE
        let folded := (operands.dropLast.reverse).foldl
          (fun result operand =>
            Expr.binaryOperation assign_start TokenType.assign operand result)
          result
        (some (folded, assign_start), s2)

/-- Model of the `while (accept(assign))` operand-collection loop of
`Parser::assign`. -/
def assignLoop : Nat → PState → List Expr → Option (List Expr) × PState
  | 0, s, _ => (none, s)
  | fuel+1, s, operands =>
    match accept TokenType.assign s with
    | (none, s1) => (some operands, s1)
    | (some _, s1) =>
      match addsub fuel s1 with
      | (some (rhs, _), s2) => assignLoop fuel s2 (operands ++ [rhs])
      | (none, s2) =>
        (none, addError s2 (currentToken s2)
          ("Expected expression, but got \x22" ++ (currentToken s2).data ++ "\x22"))

/-- Model of `Parser::addsub`: a `muldiv` followed by the
plus/minus folding loop. -/
def addsub : Nat → PState → PResult Expr
  | 0, s => (none, s)
  | fuel+1, s =>
    match muldiv fuel s with
    | (none, s1) => (none, s1)
    | (some (lhs, addsub_start), s1) => addsubLoop fuel s1 addsub_start lhs

/-- Model of the `while (accept(plus) || accept(minus))` loop of
`Parser::addsub`: left-associative folding, every node carrying
`addsub_start`. -/
def addsubLoop : Nat → PState → Token → Expr → PResult Expr
  | 0, s, _, _ => (none, s)
  | fuel+1, s, addsub_start, lhs =>
    match accept TokenType.plus s with
    | (some op_token, s1) =>
      (match muldiv fuel s1 with
       | (some (rhs, _), s2) =>
         addsubLoop fuel s2 addsub_start
           (Expr.binaryOperation addsub_start op_token.type lhs rhs)
       | (none, s2) =>
         (none, addError s2 (currentToken s2)
           ("Expected expression, but got \x22" ++ (currentToken s2).data ++ "\x22")))
    | (none, _) =>
      match accept TokenType.minus s with
      | (some op_token, s1) =>
        (match muldiv fuel s1 with
         | (some (rhs, _), s2) =>
           addsubLoop fuel s2 addsub_start
             (Expr.binaryOperation addsub_start op_token.type lhs rhs)
         | (none, s2) =>
           (none, addError s2 (currentToken s2)
             ("Expected expression, but got \x22" ++ (currentToken s2).data ++ "\x22")))
      | (none, s1) => (some (lhs, addsub_start), s1)

/-- Model of `Parser::muldiv`: a `unary_plusminus` followed by the
multiply/divide folding loop. -/
def muldiv : Nat → PState → PResult Expr
  | 0, s => (none, s)
  | fuel+1, s =>
    match unary_plusminus fuel s with
    | (none, s1) => (none, s1)
    | (some (lhs, muldiv_start), s1) => muldivLoop fuel s1 muldiv_start lhs

/-- Model of the `while (accept(multiply) || accept(divide))` loop of
`Parser::muldiv`: left-associative folding, every node carrying
`muldiv_start`. -/
def muldivLoop : Nat → PState → Token → Expr → PResult Expr
  | 0, s, _, _ => (none, s)
  | fuel+1, s, muldiv_start, lhs =>
    match accept TokenType.multiply s with
    | (some op_token, s1) =>
      (match unary_plusminus fuel s1 with
       | (some (rhs, _), s2) =>
         muldivLoop fuel s2 muldiv_start
           (Expr.binaryOperation muldiv_start op_token.type lhs rhs)
       | (none, s2) =>
         (none, addError s2 (currentToken s2)
           ("Expected expression, but got \x22" ++ (currentToken s2).data ++ "\x22")))
    | (none, _) =>
      match accept TokenType.divide s with
      | (some op_token, s1) =>
        (match unary_plusminus fuel s1 with
         | (some (rhs, _), s2) =>
           muldivLoop fuel s2 muldiv_start
             (Expr.binaryOperation muldiv_start op_token.type lhs rhs)
         | (none, s2) =>
           (none, addError s2 (currentToken s2)
             ("Expected expression, but got \x22" ++ (currentToken s2).data ++ "\x22")))
      | (none, s1) => (some (lhs, muldiv_start), s1)

/-- Model of `Parser::unary_plusminus`: at most one prefix `+`/`-`
applied to a `func_call` (the rule does not recurse into itself). -/
def unary_plusminus : Nat → PState → PResult Expr
  | 0, s => (none, s)
  | fuel+1, s =>
    match accept TokenType.plus s with
    | (some plusminus_start, s1) =>
      (match func_call fuel s1 with
       | (some (rhs, _), s2) =>
         (some (Expr.unaryOperation plusminus_start plusminus_start.type rhs,
           plusminus_start), s2)
       | (none, s2) =>
         (none, addError s2 (currentToken s2)
           ("Expected expression, but got \x22" ++ (currentToken s2).data ++ "\x22")))
    | (none, _) =>
      match accept TokenType.minus s with
      | (some plusminus_start, s1) =>
        (match func_call fuel s1 with
         | (some (rhs, _), s2) =>
           (some (Expr.unaryOperation plusminus_start plusminus_start.type rhs,
             plusminus_start), s2)
         | (none, s2) =>
           (none, addError s2 (currentToken s2)
             ("Expected expression, but got \x22" ++ (currentToken s2).data ++ "\x22")))
      | (none, s1) =>
        match func_call fuel s1 with
        | (some (func_call_expr, func_call_start), s2) =>
          (some (func_call_expr, func_call_start), s2)
        | (none, s2) => (none, s2)

/-- Model of `Parser::func_call`: a `paren` expression followed by
zero or more parenthesized argument lists. -/
def func_call : Nat → PState → PResult Expr
  | 0, s => (none, s)
  | fuel+1, s =>
    match paren fuel s with
    | (none, s1) => (none, s1)
    | (some (func_expr, func_call_start), s1) =>
      funcCallLoop fuel s1 func_call_start func_expr

/-- Model of the outer `while (accept(lparen))` loop of
`Parser::func_call`: each completed argument list rewraps the callee in a
new FunctionCallOperation. -/
def funcCallLoop : Nat → PState → Token → Expr → PResult Expr
  | 0, s, _, _ => (none, s)
  | fuel+1, s, func_call_start, func_expr =>
    match accept TokenType.lparen s with
    | (none, s1) => (some (func_expr, func_call_start), s1)
    | (some _, s1) =>
      match funcCallArgs fuel s1 func_call_start func_expr [] with
      | (none, s2) => (none, s2)
      | (some func_expr2, s2) => funcCallLoop fuel s2 func_call_start func_expr2

/-- Model of the inner `while (true)` argument loop of
`Parser::func_call`.  When the argument expression fails and the next
token is not a closing parenthesis the C++ loop repeats without
consuming anything (an infinite loop in the source); that path is
modelled by the recursion running out of fuel. -/
def funcCallArgs : Nat → PState → Token → Expr → List Expr → Option Expr × PState
  | 0, s, _, _, _ => (none, s)
  | fuel+1, s, func_call_start, func_expr, arg =>
    match expr fuel s with
    | (some (a_arg, _), s1) =>
      let arg2 := arg ++ [a_arg]
      (match accept TokenType.rparen s1 with
       | (some _, s2) =>
         (some (Expr.functionCallOperation func_call_start func_expr arg2), s2)
       | (none, s2) =>
         match accept TokenType.comma s2 with
         | (some _, s3) => funcCallArgs fuel s3 func_call_start func_expr arg2
         | (none, s3) =>
           (none, addError s3 (currentToken s3)
             ("Expected \x27,\x27 or \x27;\x27, but got \x22" ++
               (currentToken s3).data ++ "\x22")))
    | (none, s1) =>
      match accept TokenType.rparen s1 with
      | (some _, s2) =>
        (some (Expr.functionCallOperation func_call_start func_expr arg), s2)
      | (none, s2) => funcCallArgs fuel s2 func_call_start func_expr arg

/-- Model of `Parser::paren`: a parenthesized expression or an atom.  The
result of the inner `expr` call is ignored, so `( )` yields success with
a null expression. -/
def paren : Nat → PState → PResult Expr
  | 0, s => (none, s)
  | fuel+1, s =>
    match accept TokenType.lparen s with
    | (some paren_start, s1) =>
      (match expr fuel s1 with
       | (er, s2) =>
         let expression := match er with
           | some (e, _) => e
           | none => Expr.nullE
         match accept TokenType.rparen s2 with
         | (some _, s3) => (some (expression, paren_start), s3)
         | (none, s3) =>
           (none, addError s3 (currentToken s3)
             ("Expected \x27)\x27, but got \x22" ++ (currentToken s3).data ++ "\x22")))
    | (none, s1) =>
      match atom s1 with
      | (some (atom_expr, atom_start), s2) => (some (atom_expr, atom_start), s2)
      | (none, s2) => (none, s2)

/-- Model of `Parser::type`: delegates to `array_type`. -/
def type : Nat → PState → PResult Ty
  | 0, s => (none, s)
  | fuel+1, s => array_type fuel s

/-- Model of `Parser::array_type`: a reference type followed by zero or
more bracketed length expressions. -/
def array_type : Nat → PState → PResult Ty
  | 0, s => (none, s)
  | fuel+1, s =>
    match reference_type s with
    | (none, s1) => (none, s1)
    | (some (type0, array_start_token), s1) =>
      match accept TokenType.lbparen s1 with
      | (some _, s2) => arrayLoop fuel s2 array_start_token type0
      | (none, s2) => (some (type0, array_start_token), s2)

/-- Model of the `goto loop` cycle of `Parser::array_type`, entered right
after a `[` has been consumed: a length expression and `]`, wrapping the
type so far in a StaticArray; a failed length expression raises the
placeholder `TODO` error, a missing `]` fails silently. -/
def arrayLoop : Nat → PState → Token → Ty → PResult Ty
  | 0, s, _, _ => (none, s)
  | fuel+1, s, array_start_token, lhs_array_type =>
    match expr fuel s with
    | (none, s1) => (none, addError s1 (currentToken s1) "TODO")
    | (some (length, _), s1) =>
      match accept TokenType.rbparen s1 with
      | (none, s2) => (none, s2)
      | (some _, s2) =>
        let lhs2 := Ty.staticArray array_start_token lhs_array_type length
        match accept TokenType.lbparen s2 with
        | (some _, s3) => arrayLoop fuel s3 array_start_token lhs2
        | (none, s3) => (some (lhs2, array_start_token), s3)

/-- Model of the `while (scope(statement, &block_start))` loop of
`Parser::block`: `block_start` is overwritten by every successful
iteration, so after the loop it holds the start token of the last
top-level statement (or stays default-constructed). -/
def blockLoop : Nat → PState → List Stmt → Token → List Stmt × Token × PState
  | 0, s, acc, block_start => (acc, block_start, s)
  | fuel+1, s, acc, block_start =>
    match scope fuel s with
    | (some (statement, scope_start), s1) => blockLoop fuel s1 (acc ++ [statement]) scope_start
    | (none, s1) => (acc, block_start, s1)

end

/-- Model of `Parser::block`: run the statement loop, then succeed with a
Block node exactly when the accumulated error set is empty.  Note the
source does not require the token stream to be exhausted. -/
def block (fuel : Nat) (s : PState) : PResult Stmt :=
  match blockLoop fuel s [] defaultToken with
  | (statements, block_start, s1) =>
    if s1.errors = [] then
      (some (Stmt.block block_start statements, block_start), s1)
    else
      (none, s1)

/-- Fuel budget for a full parse: every rule invocation and loop
iteration consumes at least one unit, and each costs a bounded call
depth, so this is ample for any input actually consumed. -/
def parseFuel (input : List Token) : Nat := 100 * input.length + 100

/-- Model of `Parser::parse`: run `block` on a fresh state over the given
input (fresh cursor, no accumulated diagnostics). -/
def parse (input : List Token) : PResult Stmt :=
  block (parseFuel input) { input := input, pos := 0, errors := [] }

end Parser
end Dlink

namespace Dlink

/-- Backend value handle built by the LLVM builder calls the
code-generation members make (CodeGen.hh / ParseStruct/Operation.cc):
integer constants (`getInt32`), the boolean constant `getFalse`,
arithmetic instructions (`CreateAdd`, `CreateSub`, `CreateMul`,
`CreateSDiv`), calls (`CreateCall`), returns (`CreateRet`), and the
backend handle an Identifier resolves to. -/
inductive Value
  | i32 (n : Int)
  | i1 (b : Bool)
  | add (lhs rhs : Value)
  | sub (lhs rhs : Value)
  | mul (lhs rhs : Value)
  | sdiv (lhs rhs : Value)
  | call (func : Value) (args : List Value)
  | ret (v : Value)
  | identRef (id : String)

/-- Model of `operator_string` (ParseStruct/Operation.cc): the printable
form of each operator token type, empty for the rest. -/
def operator_string (operator_type : TokenType) : String :=
  match operator_type with
  | .plus => "+"
  | .increment => "++"
  | .plus_assign => "+="
  | .minus => "-"
  | .decrement => "--"
  | .minus_assign => "-="
  | .multiply => "*"
  | .multiply_assign => "*="
  | .divide => "/"
  | .divide_assign => "/="
  | .modulo => "%"
  | .modulo_assign => "%="
  | .assign => "="
  | .equal => "=="
  | .noteq => "!="
  | .greater => ">"
  | .eqgreater => ">="
  | .less => "<"
  | .eqless => "<="
  | .logic_and => "&&"
  | .logic_or => "||"
  | .bit_not => "~"
  | .bit_and => "&"
  | .bit_and_assign => "&="
  | .bit_or => "|"
  | .bit_or_assign => "|="
  | .bit_xor => "^"
  | .bit_xor_assign => "^="
  | .bit_lshift => "<<"
  | .bit_lshift_assign => "<<="
  | .bit_rshift => ">>"
  | .bit_rshift_assign => ">>="
  | .dot => "."
  | _ => ""

/-- Modelled from the spec: `tree_prefix` (declared `extern` in
ParseStruct/Operation.cc, defined in a file not under src/) renders the
indentation prefix of a tree dump line for the given nesting depth;
modelled as three spaces per depth level.  Claims depend only on it
being a fixed deterministic function of the depth. -/
def tree_indent (depth : Nat) : String := String.join (List.replicate depth "   ")

/-- Modelled from the spec: `token_map` (defined in a file not under
src/) maps a TokenType to a printable token name for diagnostics, total
over the operator token types used by `tree_gen`; modelled as a fixed
name per constructor.  Claims depend only on it being a fixed
deterministic function of the token type. -/
def token_map (t : TokenType) : String :=
  match t with
  | .plus => "plus"
  | .minus => "minus"
  | .multiply => "multiply"
  | .divide => "divide"
  | .assign => "assign"
  | _ => "token"

mutual

/-- Model of the `code_gen` members of the Expression nodes
(ParseStruct/Operation.cc).  Calling `code_gen` through a null
ExpressionPtr is undefined behavior in the source and is modelled as
`none`; every member first evaluates its children, so a null child also
yields `none`.  Integer32 emits `getInt32(data)`; BinaryOperation emits
add/sub/mul/signed-div for `+ - * /` and silently returns
`getFalse()` for every other operator (the `// TODO` fallback);
UnaryOperation multiplies by the constant 1 for `+` and by the constant
-1 for `-` (getInt32(-1) wraps to the signed value -1) and has the same
`getFalse()` fallback; FunctionCallOperation evaluates the callee and
then the arguments in order and emits a call (its backend-side
callable check is not representable here).  Identifier::code_gen is not
under src/; modelled from the spec as resolving the name to a backend
value handle. -/
def Expr.code_gen : Expr → Option Value
  | .nullE => none
  | .integer32 _ data => some (Value.i32 data)
  | .identifier _ id => some (Value.identRef id)
  | .binaryOperation _ op lhs rhs =>
    (match Expr.code_gen lhs with
     | none => none
     | some lhs_value =>
       match Expr.code_gen rhs with
       | none => none
       | some rhs_value =>
         match op with
         | .plus => some (Value.add lhs_value rhs_value)
         | .minus => some (Value.sub lhs_value rhs_value)
         | .multiply => some (Value.mul lhs_value rhs_value)
         | .divide => some (Value.sdiv lhs_value rhs_value)
         | _ => some (Value.i1 false))
  | .unaryOperation _ op rhs =>
    (match Expr.code_gen rhs with
     | none => none
     | some rhs_value =>
       match op with
       | .plus => some (Value.mul (Value.i32 1) rhs_value)
       | .minus => some (Value.mul (Value.i32 (-1)) rhs_value)
       | _ => some (Value.i1 false))
  | .functionCallOperation _ func_expr argument =>
    match Expr.code_gen func_expr with
    | none => none
    | some f =>
      match Expr.codeGenList argument with
      | none => none
      | some args => some (Value.call f args)

/-- Code generation of an argument list, in source order (the `for` loop
of FunctionCallOperation::code_gen). -/
def Expr.codeGenList : List Expr → Option (List Value)
  | [] => some []
  | e :: es =>
    match Expr.code_gen e, Expr.codeGenList es with
    | some v, some vs => some (v :: vs)
    | _, _ => none

end

mutual

/-- Model of the `tree_gen` members of the Expression nodes
(ParseStruct/Operation.cc): the indented structural dump.  As with
`code_gen`, invoking `tree_gen` through a null ExpressionPtr is
undefined behavior and modelled as `none`.  Identifier::tree_gen is not
under src/; modelled from the spec as rendering the node kind and
name. -/
def Expr.tree_gen : Expr → Nat → Option String
  | .nullE, _ => none
  | .integer32 _ data, depth =>
    some (tree_indent depth ++ "Integer32(" ++ toString data ++ ")")
  | .identifier _ id, depth =>
    some (tree_indent depth ++ "Identifier(" ++ id ++ ")")
  | .binaryOperation _ op lhs rhs, depth =>
    (match Expr.tree_gen lhs (depth + 2), Expr.tree_gen rhs (depth + 2) with
     | some lhs_tree, some rhs_tree =>
       some (tree_indent depth ++ "BinaryOperation:\n" ++
         tree_indent (depth + 1) ++ "lhs:\n" ++ lhs_tree ++ "\n" ++
         tree_indent (depth + 1) ++ "rhs:\n" ++ rhs_tree ++ "\n" ++
         tree_indent (depth + 1) ++ "op:\n" ++
         tree_indent (depth + 2) ++ operator_string op ++ "(" ++ token_map op ++ ")")
     | _, _ => none)
  | .unaryOperation _ op rhs, depth =>
    (match Expr.tree_gen rhs (depth + 2) with
     | some rhs_tree =>
       some (tree_indent depth ++ "UnaryOperation:\n" ++
         tree_indent (depth + 1) ++ "rhs:\n" ++ rhs_tree ++ "\n" ++
         tree_indent (depth + 1) ++ "op:\n" ++
         tree_indent (depth + 2) ++ operator_string op ++ "(" ++ token_map op ++ ")")
     | none => none)
  | .functionCallOperation _ func_expr argument, depth =>
    match Expr.tree_gen func_expr (depth + 2) with
    | none => none
    | some func_tree =>
      match Expr.treeGenList argument (depth + 2) with
      | none => none
      | some args_tree =>
        some (tree_indent depth ++ "FunctionCallOperation:\n" ++
          tree_indent (depth + 1) ++ "func_expr:\n" ++ func_tree ++ "\n" ++
          tree_indent (depth + 1) ++ "argument:\n" ++ args_tree)

/-- Concatenated dumps of an argument list (the `for` loop of
FunctionCallOperation::tree_gen, which appends no separator). -/
def Expr.treeGenList : List Expr → Nat → Option String
  | [], _ => some ""
  | e :: es, depth =>
    match Expr.tree_gen e depth, Expr.treeGenList es depth with
    | some t, some ts => some (t ++ ts)
    | _, _ => none

end

/-- Model of `ReturnStatement::code_gen`:
`LLVM::builder.CreateRet(return_expr->code_gen())`, an unconditional
dereference of the stored expression. -/
def ReturnStatement.code_gen (return_expr : Expr) : Option Value :=
  match Expr.code_gen return_expr with
  | some v => some (Value.ret v)
  | none => none

/-- Model of `ReturnStatement::tree_gen`: the header line followed by the
dump of the stored expression, again an unconditional dereference. -/
def ReturnStatement.tree_gen (return_expr : Expr) (depth : Nat) : Option String :=
  match Expr.tree_gen return_expr (depth + 1) with
  | some t => some (tree_indent depth ++ "ReturnStatement:\n" ++ t)
  | none => none

end Dlink

namespace Dlink

/-- Concrete token at line 1, column `i`, used by the concrete inputs the
claims are settled at. -/
def mkTok (t : TokenType) (d : String) (i : Nat) : Token :=
  { type := t, data := d, line := 1, col := i }

/-- Harness entry: run the `expr` rule on a fresh parser state over the
given input with the standard fuel budget, as the statement rules do
when they need an expression. -/
def runExpr (l : List Token) : PResult Expr :=
  Parser.expr (Parser.parseFuel l) { input := l, pos := 0, errors := [] }

/-- C1 (amended): Parser::parse reports success exactly when the
accumulated error set is empty at the point the top-level block is
finalized; consuming the entire token stream is not required for
success. -/
theorem C1_parse_succeeds_iff_errors_empty (input : List Token) :
    ((Parser.parse input).1.isSome = true) ↔ (Parser.parse input).2.errors = [] := by
  unfold Parser.parse Parser.block
  split
  next statements block_start s1 heq =>
    by_cases h : s1.errors = [] <;> simp [h]

/-- C1 witness: on the single-token input `;` the parse succeeds, and
the theorem yields that the error set is then empty. -/
theorem C1_parse_succeeds_iff_errors_empty_witness :
    (Parser.parse [mkTok .semicolon ";" 0]).2.errors = [] :=
  (C1_parse_succeeds_iff_errors_empty [mkTok .semicolon ";" 0]).mp rfl

/-- C1 counterexample: parsing the one-token input `;` succeeds while the
cursor is still at position 0 of an input of length 1, so parse does
succeed with unconsumed tokens remaining, contrary to the claim. -/
theorem C1_counterexample :
    ((Parser.parse [mkTok .semicolon ";" 0]).1.isSome = true) ∧
    (Parser.parse [mkTok .semicolon ";" 0]).2.pos = 0 ∧
    ([mkTok .semicolon ";" 0] : List Token).length = 1 :=
  ⟨rfl, rfl, rfl⟩

/-- C2: code generation of a BinaryOperation whose operator is not one of
`+ - * /` (here `=`) silently returns the placeholder `getFalse()`
value instead of signaling any error condition: the claim (and the
specification) require an error signal, so this evaluation exhibits the
code bug at the failing input. -/
theorem C2_binary_codegen_silent_placeholder :
    Expr.code_gen
      (Expr.binaryOperation (mkTok .assign "=" 1) TokenType.assign
        (Expr.integer32 (mkTok .dec_integer "1" 0) 1)
        (Expr.integer32 (mkTok .dec_integer "2" 2) 2)) =
    some (Value.i1 false) := by
  simp [Expr.code_gen]

/-- C3 counterexample: in `a = b = c` the inner BinaryOperation built for
`b = c` carries the token of `a` (the start of the whole chain), not the
token of `b` at which `b = c` begins, so not every node's stored start
token is the first token consumed while recognizing that construct. -/
theorem C3_counterexample :
    (runExpr [mkTok .identifier "a" 0, mkTok .assign "=" 1, mkTok .identifier "b" 2,
        mkTok .assign "=" 3, mkTok .identifier "c" 4]).1 =
      some (Expr.binaryOperation (mkTok .identifier "a" 0) TokenType.assign
        (Expr.identifier (mkTok .identifier "a" 0) "a")
        (Expr.binaryOperation (mkTok .identifier "a" 0) TokenType.assign
          (Expr.identifier (mkTok .identifier "b" 2) "b")
          (Expr.identifier (mkTok .identifier "c" 4) "c")),
        mkTok .identifier "a" 0) ∧
    mkTok .identifier "a" 0 ≠ mkTok .identifier "b" 2 :=
  ⟨rfl, by decide⟩

/-- C3 (amended): nodes synthesized by an enclosing rule inherit that
rule's start token instead of the first token of their own construct:
every BinaryOperation of the chain `a = b = c` carries the chain's first
token (that of `a`), and the parameter VariableDeclaration of
`int f ( int x ) { }` carries the function declaration's first token
(the first `int`, column 0), not the parameter's own first token (the
second `int`, column 3, a distinct token). -/
theorem C3_amended_start_tokens :
    ((runExpr [mkTok .identifier "a" 0, mkTok .assign "=" 1, mkTok .identifier "b" 2,
        mkTok .assign "=" 3, mkTok .identifier "c" 4]).1 =
      some (Expr.binaryOperation (mkTok .identifier "a" 0) TokenType.assign
        (Expr.identifier (mkTok .identifier "a" 0) "a")
        (Expr.binaryOperation (mkTok .identifier "a" 0) TokenType.assign
          (Expr.identifier (mkTok .identifier "b" 2) "b")
          (Expr.identifier (mkTok .identifier "c" 4) "c")),
        mkTok .identifier "a" 0)) ∧
    ((Parser.parse [mkTok ._int "int" 0, mkTok .identifier "f" 1, mkTok .lparen "(" 2,
        mkTok ._int "int" 3, mkTok .identifier "x" 4, mkTok .rparen ")" 5,
        mkTok .lbrace "\x7b" 6, mkTok .rbrace "\x7d" 7]).1 =
      some (Stmt.block defaultToken
        [Stmt.functionDeclaration (mkTok ._int "int" 0)
          (Ty.simpleType (mkTok ._int "int" 0) "int" false) "f"
          [{ token := mkTok ._int "int" 0,
             type := Ty.simpleType (mkTok ._int "int" 3) "int" false,
             identifier := "x", expression := Expr.nullE }]
          (Stmt.scope (mkTok .lbrace "\x7b" 6) [])],
        defaultToken)) ∧
    mkTok ._int "int" 0 ≠ mkTok ._int "int" 3 :=
  ⟨rfl, rfl, by decide⟩

/-- C4: assignment parses right-associatively: `a = b = c` yields
`BinaryOperation(=, Identifier(a), BinaryOperation(=, Identifier(b),
Identifier(c)))` (operands collected left to right, folded right to
left). -/
theorem C4_assign_right_associative :
    (runExpr [mkTok .identifier "a" 0, mkTok .assign "=" 1, mkTok .identifier "b" 2,
        mkTok .assign "=" 3, mkTok .identifier "c" 4]).1 =
      some (Expr.binaryOperation (mkTok .identifier "a" 0) TokenType.assign
        (Expr.identifier (mkTok .identifier "a" 0) "a")
        (Expr.binaryOperation (mkTok .identifier "a" 0) TokenType.assign
          (Expr.identifier (mkTok .identifier "b" 2) "b")
          (Expr.identifier (mkTok .identifier "c" 4) "c")),
        mkTok .identifier "a" 0) :=
  rfl

/-- C5: multiplication binds tighter than addition: `1 + 2 * 3` parses
with `+` at the root and `BinaryOperation(*, 2, 3)` as its right
operand. -/
theorem C5_precedence_mul_over_add :
    (runExpr [mkTok .dec_integer "1" 0, mkTok .plus "+" 1, mkTok .dec_integer "2" 2,
        mkTok .multiply "*" 3, mkTok .dec_integer "3" 4]).1 =
      some (Expr.binaryOperation (mkTok .dec_integer "1" 0) TokenType.plus
        (Expr.integer32 (mkTok .dec_integer "1" 0) 1)
        (Expr.binaryOperation (mkTok .dec_integer "2" 2) TokenType.multiply
          (Expr.integer32 (mkTok .dec_integer "2" 2) 2)
          (Expr.integer32 (mkTok .dec_integer "3" 4) 3)),
        mkTok .dec_integer "1" 0) :=
  rfl

/-- C6: addition and subtraction parse left-associatively: `1 - 2 - 3`
yields `BinaryOperation(-, BinaryOperation(-, 1, 2), 3)`. -/
theorem C6_addsub_left_associative :
    (runExpr [mkTok .dec_integer "1" 0, mkTok .minus "-" 1, mkTok .dec_integer "2" 2,
        mkTok .minus "-" 3, mkTok .dec_integer "3" 4]).1 =
      some (Expr.binaryOperation (mkTok .dec_integer "1" 0) TokenType.minus
        (Expr.binaryOperation (mkTok .dec_integer "1" 0) TokenType.minus
          (Expr.integer32 (mkTok .dec_integer "1" 0) 1)
          (Expr.integer32 (mkTok .dec_integer "2" 2) 2))
        (Expr.integer32 (mkTok .dec_integer "3" 4) 3),
        mkTok .dec_integer "1" 0) :=
  rfl

/-- C7: code generation of UnaryOperation emits a multiplication of the
operand's value by the constant 1 for operator `+` and by the constant
-1 for operator `-` (negation is a multiplication, not a dedicated
negate instruction), for every token and operand expression. -/
theorem C7_unary_codegen_multiplies_by_constant (tok : Token) (rhs : Expr) :
    Expr.code_gen (Expr.unaryOperation tok TokenType.plus rhs) =
      (Expr.code_gen rhs).map (fun v => Value.mul (Value.i32 1) v) ∧
    Expr.code_gen (Expr.unaryOperation tok TokenType.minus rhs) =
      (Expr.code_gen rhs).map (fun v => Value.mul (Value.i32 (-1)) v) := by
  cases h : Expr.code_gen rhs <;> constructor <;> simp [Expr.code_gen, h]

/-- C8: parsing `int x = ;` fails overall with a non-empty error set
whose first (and only) raised error carries the token immediately
following `=`, namely the `;` token. -/
theorem C8_error_points_after_assign :
    ((Parser.parse [mkTok ._int "int" 0, mkTok .identifier "x" 1, mkTok .assign "=" 2,
        mkTok .semicolon ";" 3]).1 = none) ∧
    ((Parser.parse [mkTok ._int "int" 0, mkTok .identifier "x" 1, mkTok .assign "=" 2,
        mkTok .semicolon ";" 3]).2.errors ≠ []) ∧
    (((Parser.parse [mkTok ._int "int" 0, mkTok .identifier "x" 1, mkTok .assign "=" 2,
        mkTok .semicolon ";" 3]).2.errors.head?.map Error.token) =
      some (mkTok .semicolon ";" 3)) :=
  ⟨rfl, by decide, rfl⟩

/-- C9: on the input `( )` the paren rule succeeds while leaving its
output expression null (the failed inner expr call is ignored), and the
whole program `( ) ;` parses successfully into a Block containing an
ExpressionStatement whose expression child is null. -/
theorem C9_paren_succeeds_with_null_expression :
    ((Parser.paren (Parser.parseFuel [mkTok .lparen "(" 0, mkTok .rparen ")" 1])
        { input := [mkTok .lparen "(" 0, mkTok .rparen ")" 1], pos := 0, errors := [] }).1 =
      some (Expr.nullE, mkTok .lparen "(" 0)) ∧
    ((Parser.parse [mkTok .lparen "(" 0, mkTok .rparen ")" 1, mkTok .semicolon ";" 2]).1 =
      some (Stmt.block (mkTok .lparen "(" 0)
        [Stmt.expressionStatement (mkTok .lparen "(" 0) Expr.nullE],
        mkTok .lparen "(" 0)) :=
  ⟨rfl, rfl⟩

/-- C10: the parser builds a ReturnStatement with a null stored
expression for a bare `return ;`, and both ReturnStatement::code_gen and
ReturnStatement::tree_gen dereference that expression unconditionally,
so on the null expression they are undefined (modelled as `none`):
they are well-defined only under the precondition that the stored
expression is non-null, which that node violates. -/
theorem C10_return_statement_null_dereference :
    ((Parser.parse [mkTok ._return "return" 0, mkTok .semicolon ";" 1]).1 =
      some (Stmt.block (mkTok ._return "return" 0)
        [Stmt.returnStatement (mkTok ._return "return" 0) Expr.nullE],
        mkTok ._return "return" 0)) ∧
    ReturnStatement.code_gen Expr.nullE = none ∧
    ReturnStatement.tree_gen Expr.nullE 0 = none :=
  ⟨rfl, rfl, rfl⟩

end Dlink
